import Mathlib

/-!
Verification development for a Telegram password-generator bot.

The repository has two Python source files:
* `main.py` — the current bot: JSON-persisted per-user settings, a password
  generator reading class flags with `dict.get(key, False)`, a truncation
  branch for lengths below the enabled-class count, and a button dispatcher.
* `telegram_password_bot.py` — an earlier variant: in-memory settings, class
  flags read by direct indexing, no truncation branch.

The embedding below is shallow: Python's `random` module is modelled by an
explicit seed (a list of naturals); `random.choice` picks the element at
`seed value mod pool length`, and `random.shuffle` is modelled as a
seed-driven selection permutation of its input list.  File-system and JSON
outcomes are modelled as an explicit datatype of read outcomes, and Python
exceptions as `Except`.
-/

/-- `string.ascii_lowercase` from Python's standard library. -/
def ascii_lowercase : List Char := "abcdefghijklmnopqrstuvwxyz".data

/-- `string.ascii_uppercase` from Python's standard library. -/
def ascii_uppercase : List Char := "ABCDEFGHIJKLMNOPQRSTUVWXYZ".data

/-- `string.digits` from Python's standard library. -/
def string_digits : List Char := "0123456789".data

/-- The random seed: a stream of naturals, taken to be 0 when exhausted. -/
def nextNat : List Nat → Nat × List Nat
  | [] => (0, [])
  | n :: rest => (n, rest)

/-- Models `random.choice(pool)`: returns the element of `pool` at the
seed-determined index (the index is reduced mod the pool length, so for a
nonempty pool the result is always an element of the pool). -/
def randChoice (pool : List Char) (s : List Nat) : Char × List Nat :=
  let (n, s') := nextNat s
  (pool.getD (n % pool.length) ' ', s')

/-- Models a comprehension `[random.choice(pool) for _ in range(n)]`. -/
def randChoices (pool : List Char) : Nat → List Nat → List Char × List Nat
  | 0, s => ([], s)
  | n + 1, s =>
    let (c, s') := randChoice pool s
    let (rest, s'') := randChoices pool n s'
    (c :: rest, s'')

/-- Fuel-indexed selection shuffle: repeatedly extract the element at a
seed-determined index.  With fuel equal to the list length this produces a
permutation of the input. -/
def shuffleAux : Nat → List Char → List Nat → List Char
  | 0, _, _ => []
  | fuel + 1, l, s =>
    if l.isEmpty then []
    else
      let (n, s') := nextNat s
      let i := n % l.length
      l.getD i ' ' :: shuffleAux fuel (l.eraseIdx i) s'

/-- Models `random.shuffle(l)`: a seed-driven permutation of `l`. -/
def shuffleList (l : List Char) (s : List Nat) : List Char :=
  shuffleAux l.length l s

/-- Python slice `l[:n]` for an integer `n`: a nonnegative bound takes the
first `n` elements; a negative bound drops the last `-n` elements. -/
def pyTake (n : Int) (l : List α) : List α :=
  if 0 ≤ n then l.take n.toNat
  else l.take ((l.length : Int) + n).toNat

/-- One `if settings[...]` block of `generate_password`: when `flag` is set,
extend the pool with the class characters and append one random character of
the class to the guaranteed list, consuming randomness; otherwise leave the
state alone. -/
def addClass (flag : Bool) (chars : List Char) :
    List Char × List Char × List Nat → List Char × List Char × List Nat
  | (pool, g, rng) =>
    if flag then
      let (c, rng') := randChoice chars rng
      (pool ++ chars, g ++ [c], rng')
    else (pool, g, rng)

namespace Main

/-- The fixed symbol set of `main.py`. -/
def symbols : List Char := "!@#$%^&*()_+-=[]\x7b\x7d|;:,.<>".data

/-- A user-settings dict as `main.py` manipulates it: `length` is accessed by
direct indexing (required), the four class flags are accessed with
`.get(key, False)` and so may be absent (`none`). -/
structure Settings where
  length : Int
  use_upper : Option Bool
  use_lower : Option Bool
  use_digits : Option Bool
  use_symbols : Option Bool
deriving DecidableEq, Repr

/-- `get_default_settings` from `main.py`. -/
def get_default_settings : Settings :=
  { length := 16
    use_upper := some true
    use_lower := some true
    use_digits := some true
    use_symbols := some true }

/-- The four `if settings.get(...)` blocks of `generate_password` in
`main.py`, in source order (lower, upper, digits, symbols), starting from the
empty pool and empty guaranteed list. -/
def genState (settings : Settings) (rng : List Nat) :
    List Char × List Char × List Nat :=
  addClass (settings.use_symbols.getD false) symbols
    (addClass (settings.use_digits.getD false) string_digits
      (addClass (settings.use_upper.getD false) ascii_uppercase
        (addClass (settings.use_lower.getD false) ascii_lowercase
          ([], [], rng))))

/-- The sentinel error string of `generate_password`. -/
def errorString : String := "Ошибка: Выберите хотя бы один тип символов!"

/-- `generate_password` from `main.py`, with the randomness of
`random.choice` / `random.shuffle` made explicit as a seed. -/
def generate_password (settings : Settings) (rng : List Nat) : String :=
  let st := genState settings rng
  let character_pool := st.1
  let guaranteed_chars := st.2.1
  let rng' := st.2.2
  if character_pool.isEmpty then errorString
  else if settings.length < (guaranteed_chars.length : Int) then
    String.mk (pyTake settings.length (shuffleList guaranteed_chars rng'))
  else
    let remaining_length := (settings.length - (guaranteed_chars.length : Int)).toNat
    let (fill, rng'') := randChoices character_pool remaining_length rng'
    String.mk (shuffleList (guaranteed_chars ++ fill) rng'')

/-- Number of enabled character classes of a settings dict, reading the flags
the way `generate_password` does. -/
def enabledCount (s : Settings) : Nat :=
  (if s.use_lower.getD false then 1 else 0) +
  (if s.use_upper.getD false then 1 else 0) +
  (if s.use_digits.getD false then 1 else 0) +
  (if s.use_symbols.getD false then 1 else 0)

/-- Membership in the union of the enabled character classes. -/
def inUnion (s : Settings) (c : Char) : Prop :=
  (s.use_lower.getD false = true ∧ c ∈ ascii_lowercase) ∨
  (s.use_upper.getD false = true ∧ c ∈ ascii_uppercase) ∨
  (s.use_digits.getD false = true ∧ c ∈ string_digits) ∨
  (s.use_symbols.getD false = true ∧ c ∈ symbols)

instance (s : Settings) (c : Char) : Decidable (inUnion s c) := by
  unfold inUnion; infer_instance

/-- The settings table: JSON object keyed by `str(user_id)`. -/
def SettingsTable := List (String × Settings)

/-- Outcome of attempting to read and parse the settings file.  `missing`:
the `SETTINGS_FILE.exists()` check fails.  `readError`: the file exists but
`open`/read raises an `OSError`.  `parseError`: the contents are read but
`json.load` raises `json.JSONDecodeError`.  `parsed t`: the file parses to
the table `t`. -/
inductive ReadOutcome where
  | missing
  | readError
  | parseError
  | parsed (t : SettingsTable)

/-- `load_user_settings` from `main.py`, as a function of the file-read
outcome.  The result carries the list of logged error messages; an uncaught
Python exception is an `Except.error`.  The code checks existence first, then
wraps only `json.JSONDecodeError` in `try/except` — an `OSError` while
opening or reading an existing file propagates. -/
def load_user_settings : ReadOutcome → Except String (SettingsTable × List String)
  | .missing => .ok ([], [])
  | .readError => .error "OSError"
  | .parseError => .ok ([], ["Ошибка декодирования JSON"])
  | .parsed t => .ok (t, [])

/-- `get_user_config` from `main.py`: look the user up by the string form of
the id; on a miss, store and return the defaults.  Returns the config
together with the updated table. -/
def get_user_config (user_id : Int) (user_settings : SettingsTable) :
    Settings × SettingsTable :=
  let user_id_str := toString user_id
  match user_settings.lookup user_id_str with
  | some c => (c, user_settings)
  | none => (get_default_settings, (user_id_str, get_default_settings) :: user_settings)

/-- The callback-data constants of `main.py`, plus a case for any other
callback payload (which falls through to the `else` branch). -/
inductive Action where
  | len_incr
  | len_decr
  | len_info
  | toggle_upper
  | toggle_lower
  | toggle_digits
  | toggle_symbols
  | generate
  | other
deriving DecidableEq

/-- `button_callback` from `main.py`, restricted to its effect on the user's
config and the messages it sends.  Toggling reads the flag by direct indexing
(`config["use_upper"]`), so a missing flag raises `KeyError`, modelled as
`Except.error`.  The second component lists the texts sent to the chat. -/
def button_callback (action : Action) (config : Settings) (rng : List Nat) :
    Except String (Settings × List String) :=
  match action with
  | .len_incr => .ok ({ config with length := min 64 (config.length + 1) }, [])
  | .len_decr => .ok ({ config with length := max 4 (config.length - 1) }, [])
  | .toggle_upper =>
    match config.use_upper with
    | none => .error "KeyError"
    | some b => .ok ({ config with use_upper := some (!b) }, [])
  | .toggle_lower =>
    match config.use_lower with
    | none => .error "KeyError"
    | some b => .ok ({ config with use_lower := some (!b) }, [])
  | .toggle_digits =>
    match config.use_digits with
    | none => .error "KeyError"
    | some b => .ok ({ config with use_digits := some (!b) }, [])
  | .toggle_symbols =>
    match config.use_symbols with
    | none => .error "KeyError"
    | some b => .ok ({ config with use_symbols := some (!b) }, [])
  | .generate =>
    .ok (config,
      ["Ваш новый пароль:\n`" ++ generate_password config rng ++
        "`\n\nНажмите на него, чтобы скопировать."])
  | _ => .ok (config, [])

/-- Apply a sequence of button actions to a config (each press is a separate
update, so each starts with a fresh — here empty — random seed). -/
def applyActions : List Action → Settings → Except String Settings
  | [], config => .ok config
  | a :: rest, config =>
    match button_callback a config [] with
    | .error e => .error e
    | .ok (c, _) => applyActions rest c

end Main

namespace TPB

/-- The fixed symbol set of `telegram_password_bot.py` (note the trailing
question mark, absent from `main.py`). -/
def symbols : List Char := "!@#$%^&*()_+-=[]\x7b\x7d|;:,.<>?".data

/-- A settings dict as `telegram_password_bot.py` manipulates it: all five
keys are accessed by direct indexing, so all are required. -/
structure Settings where
  length : Int
  use_upper : Bool
  use_lower : Bool
  use_digits : Bool
  use_symbols : Bool
deriving DecidableEq, Repr

/-- The four `if settings[...]` blocks of `generate_password` in
`telegram_password_bot.py`, in source order. -/
def genState (settings : Settings) (rng : List Nat) :
    List Char × List Char × List Nat :=
  addClass settings.use_symbols symbols
    (addClass settings.use_digits string_digits
      (addClass settings.use_upper ascii_uppercase
        (addClass settings.use_lower ascii_lowercase
          ([], [], rng))))

/-- `generate_password` from `telegram_password_bot.py`.  There is no
truncation branch: `remaining_length` may be a negative Python int, and
`range` of a negative is empty — modelled by `Int.toNat`, which sends
negatives to 0. -/
def generate_password (settings : Settings) (rng : List Nat) : String :=
  let st := genState settings rng
  let character_pool := st.1
  let guaranteed_chars := st.2.1
  let rng' := st.2.2
  if character_pool.isEmpty then Main.errorString
  else
    let remaining_length := (settings.length - (guaranteed_chars.length : Int)).toNat
    let (fill, rng'') := randChoices character_pool remaining_length rng'
    String.mk (shuffleList (guaranteed_chars ++ fill) rng'')

/-- Number of enabled character classes of a settings dict. -/
def enabledCount (s : Settings) : Nat :=
  (if s.use_lower then 1 else 0) +
  (if s.use_upper then 1 else 0) +
  (if s.use_digits then 1 else 0) +
  (if s.use_symbols then 1 else 0)

end TPB

/-! ### Helper lemmas about the randomness model -/

theorem randChoice_fst (pool : List Char) (s : List Nat) :
    (randChoice pool s).1 = pool.getD ((nextNat s).1 % pool.length) ' ' := rfl

theorem randChoice_mem (pool : List Char) (s : List Nat) (h : pool ≠ []) :
    (randChoice pool s).1 ∈ pool := by
  rw [randChoice_fst]
  have hpos : 0 < pool.length := List.length_pos.mpr h
  have hi : (nextNat s).1 % pool.length < pool.length := Nat.mod_lt _ hpos
  rw [List.getD_eq_getElem pool ' ' hi]
  exact List.getElem_mem hi

theorem randChoices_succ (pool : List Char) (n : Nat) (s : List Nat) :
    randChoices pool (n + 1) s =
      ((randChoice pool s).1 :: (randChoices pool n (randChoice pool s).2).1,
        (randChoices pool n (randChoice pool s).2).2) := rfl

theorem randChoices_fst_length (pool : List Char) :
    ∀ (n : Nat) (s : List Nat), ((randChoices pool n s).1).length = n
  | 0, _ => rfl
  | n + 1, s => by
    rw [randChoices_succ]
    simp [randChoices_fst_length pool n]

theorem randChoices_fst_mem (pool : List Char) (h : pool ≠ []) :
    ∀ (n : Nat) (s : List Nat) (c : Char), c ∈ (randChoices pool n s).1 → c ∈ pool
  | 0, _, _, hc => by simp [randChoices] at hc
  | n + 1, s, c, hc => by
    rw [randChoices_succ] at hc
    rcases List.mem_cons.mp hc with h1 | h2
    · exact h1 ▸ randChoice_mem pool s h
    · exact randChoices_fst_mem pool h n _ c h2

theorem getD_cons_eraseIdx_perm :
    ∀ (l : List Char) (i : Nat), i < l.length →
      (l.getD i ' ' :: l.eraseIdx i).Perm l
  | [], i, h => absurd h (by simp)
  | x :: xs, 0, _ => by simp [List.getD]
  | x :: xs, i + 1, h => by
    have ih := getD_cons_eraseIdx_perm xs i (by simpa using h)
    have hg : (x :: xs).getD (i + 1) ' ' = xs.getD i ' ' := by simp [List.getD]
    have he : (x :: xs).eraseIdx (i + 1) = x :: xs.eraseIdx i := rfl
    rw [hg, he]
    exact (List.Perm.swap x _ _).trans (ih.cons x)

theorem shuffleAux_perm :
    ∀ (fuel : Nat) (l : List Char) (s : List Nat), l.length ≤ fuel →
      (shuffleAux fuel l s).Perm l
  | 0, l, _, h => by
    have : l = [] := List.eq_nil_of_length_eq_zero (Nat.le_zero.mp h)
    simp [this, shuffleAux]
  | fuel + 1, l, s, h => by
    rw [shuffleAux]
    by_cases hl : l.isEmpty
    · simp [hl, List.isEmpty_iff.mp hl]
    · simp only [hl, if_false]
      have hne : l ≠ [] := fun e => by simp [e] at hl
      have hpos : 0 < l.length := List.length_pos.mpr hne
      have hi : (nextNat s).1 % l.length < l.length := Nat.mod_lt _ hpos
      have hlen : (l.eraseIdx ((nextNat s).1 % l.length)).length ≤ fuel := by
        rw [List.length_eraseIdx]
        simp only [hi, if_true]
        omega
      exact ((shuffleAux_perm fuel _ _ hlen).cons _).trans
        (getD_cons_eraseIdx_perm l _ hi)

/-- The shuffle model really permutes its input. -/
theorem shuffleList_perm (l : List Char) (s : List Nat) :
    (shuffleList l s).Perm l :=
  shuffleAux_perm l.length l s le_rfl

theorem shuffleList_length (l : List Char) (s : List Nat) :
    (shuffleList l s).length = l.length :=
  (shuffleList_perm l s).length_eq

theorem shuffleList_mem {l : List Char} {s : List Nat} {c : Char} :
    c ∈ shuffleList l s ↔ c ∈ l :=
  (shuffleList_perm l s).mem_iff

theorem pyTake_subset (n : Int) (l : List Char) : pyTake n l ⊆ l := by
  unfold pyTake
  split
  · exact List.take_subset _ _
  · exact List.take_subset _ _

theorem pyTake_length (n : Int) (l : List Char) :
    (pyTake n l).length =
      min (if 0 ≤ n then n.toNat else ((l.length : Int) + n).toNat) l.length := by
  unfold pyTake
  split <;> simp [List.length_take]

/-! ### Helper lemmas about `addClass` chains -/

theorem addClass_fst (flag : Bool) (chars : List Char)
    (st : List Char × List Char × List Nat) :
    (addClass flag chars st).1 = st.1 ++ (if flag then chars else []) := by
  rcases st with ⟨p, g, r⟩
  cases flag <;> simp [addClass]

theorem addClass_guaranteed (flag : Bool) (chars : List Char)
    (st : List Char × List Char × List Nat) :
    (addClass flag chars st).2.1 =
      st.2.1 ++ (if flag then [(randChoice chars st.2.2).1] else []) := by
  rcases st with ⟨p, g, r⟩
  cases flag <;> simp [addClass]

theorem addClass_guaranteed_length (flag : Bool) (chars : List Char)
    (st : List Char × List Char × List Nat) :
    (addClass flag chars st).2.1.length =
      st.2.1.length + (if flag then 1 else 0) := by
  rw [addClass_guaranteed]
  cases flag <;> simp

theorem addClass_mem_fst (flag : Bool) (chars : List Char)
    (st : List Char × List Char × List Nat) (c : Char) :
    c ∈ (addClass flag chars st).1 ↔ c ∈ st.1 ∨ (flag = true ∧ c ∈ chars) := by
  rw [addClass_fst]
  cases flag <;> simp

theorem addClass_mem_guaranteed (flag : Bool) (chars : List Char)
    (st : List Char × List Char × List Nat) (c : Char)
    (hch : chars ≠ []) (hc : c ∈ (addClass flag chars st).2.1) :
    c ∈ st.2.1 ∨ (flag = true ∧ c ∈ chars) := by
  rw [addClass_guaranteed] at hc
  rcases List.mem_append.mp hc with h1 | h2
  · exact Or.inl h1
  · cases flag with
    | false => simp at h2
    | true =>
      simp only [if_true] at h2
      rcases List.mem_singleton.mp h2 with rfl
      exact Or.inr ⟨rfl, randChoice_mem chars _ hch⟩

theorem addClass_guaranteed_mono (flag : Bool) (chars : List Char)
    (st : List Char × List Char × List Nat) (c : Char)
    (hc : c ∈ st.2.1) : c ∈ (addClass flag chars st).2.1 := by
  rw [addClass_guaranteed]
  exact List.mem_append_left _ hc

theorem addClass_guaranteed_hit (chars : List Char)
    (st : List Char × List Char × List Nat) (hch : chars ≠ []) :
    ∃ c ∈ (addClass true chars st).2.1, c ∈ chars := by
  refine ⟨(randChoice chars st.2.2).1, ?_, randChoice_mem chars _ hch⟩
  rw [addClass_guaranteed]
  simp

/-! ### Facts about `Main.genState` -/

theorem ascii_lowercase_ne_nil : ascii_lowercase ≠ [] := by decide

theorem ascii_uppercase_ne_nil : ascii_uppercase ≠ [] := by decide

theorem string_digits_ne_nil : string_digits ≠ [] := by decide

theorem main_symbols_ne_nil : Main.symbols ≠ [] := by decide

theorem main_genState_fst (s : Main.Settings) (rng : List Nat) :
    (Main.genState s rng).1 =
      ((([] ++ (if s.use_lower.getD false then ascii_lowercase else [])) ++
        (if s.use_upper.getD false then ascii_uppercase else [])) ++
        (if s.use_digits.getD false then string_digits else [])) ++
        (if s.use_symbols.getD false then Main.symbols else []) := by
  unfold Main.genState
  rw [addClass_fst, addClass_fst, addClass_fst, addClass_fst]

theorem main_genState_guaranteed_length (s : Main.Settings) (rng : List Nat) :
    (Main.genState s rng).2.1.length = Main.enabledCount s := by
  unfold Main.genState Main.enabledCount
  rw [addClass_guaranteed_length, addClass_guaranteed_length,
    addClass_guaranteed_length, addClass_guaranteed_length]
  simp only [List.length_nil]
  omega

theorem main_genState_mem_fst (s : Main.Settings) (rng : List Nat) (c : Char) :
    c ∈ (Main.genState s rng).1 ↔ Main.inUnion s c := by
  rw [main_genState_fst, Main.inUnion]
  cases hl : s.use_lower.getD false <;> cases hu : s.use_upper.getD false <;>
    cases hd : s.use_digits.getD false <;> cases hs : s.use_symbols.getD false <;>
    simp

theorem main_genState_fst_isEmpty (s : Main.Settings) (rng : List Nat) :
    (Main.genState s rng).1.isEmpty = true ↔ Main.enabledCount s = 0 := by
  rw [main_genState_fst]
  unfold Main.enabledCount
  cases s.use_lower.getD false <;> cases s.use_upper.getD false <;>
    cases s.use_digits.getD false <;> cases s.use_symbols.getD false <;>
    simp [ascii_lowercase, ascii_uppercase, string_digits, Main.symbols]

theorem main_genState_mem_guaranteed (s : Main.Settings) (rng : List Nat)
    (c : Char) (hc : c ∈ (Main.genState s rng).2.1) : Main.inUnion s c := by
  unfold Main.genState at hc
  rcases addClass_mem_guaranteed _ _ _ _ main_symbols_ne_nil hc with h | h
  · rcases addClass_mem_guaranteed _ _ _ _ string_digits_ne_nil h with h | h
    · rcases addClass_mem_guaranteed _ _ _ _ ascii_uppercase_ne_nil h with h | h
      · rcases addClass_mem_guaranteed _ _ _ _ ascii_lowercase_ne_nil h with h | h
        · simp at h
        · exact Or.inl h
      · exact Or.inr (Or.inl h)
    · exact Or.inr (Or.inr (Or.inl h))
  · exact Or.inr (Or.inr (Or.inr h))

theorem main_genState_hit_lower (s : Main.Settings) (rng : List Nat)
    (h : s.use_lower.getD false = true) :
    ∃ c ∈ (Main.genState s rng).2.1, c ∈ ascii_lowercase := by
  unfold Main.genState
  rw [h]
  obtain ⟨c, hc, hmem⟩ :=
    addClass_guaranteed_hit ascii_lowercase ([], [], rng) ascii_lowercase_ne_nil
  exact ⟨c, addClass_guaranteed_mono _ _ _ _
    (addClass_guaranteed_mono _ _ _ _
      (addClass_guaranteed_mono _ _ _ _ hc)), hmem⟩

theorem main_genState_hit_upper (s : Main.Settings) (rng : List Nat)
    (h : s.use_upper.getD false = true) :
    ∃ c ∈ (Main.genState s rng).2.1, c ∈ ascii_uppercase := by
  unfold Main.genState
  rw [h]
  obtain ⟨c, hc, hmem⟩ :=
    addClass_guaranteed_hit ascii_uppercase
      (addClass (s.use_lower.getD false) ascii_lowercase ([], [], rng))
      ascii_uppercase_ne_nil
  exact ⟨c, addClass_guaranteed_mono _ _ _ _
    (addClass_guaranteed_mono _ _ _ _ hc), hmem⟩

theorem main_genState_hit_digits (s : Main.Settings) (rng : List Nat)
    (h : s.use_digits.getD false = true) :
    ∃ c ∈ (Main.genState s rng).2.1, c ∈ string_digits := by
  unfold Main.genState
  rw [h]
  obtain ⟨c, hc, hmem⟩ :=
    addClass_guaranteed_hit string_digits
      (addClass (s.use_upper.getD false) ascii_uppercase
        (addClass (s.use_lower.getD false) ascii_lowercase ([], [], rng)))
      string_digits_ne_nil
  exact ⟨c, addClass_guaranteed_mono _ _ _ _ hc, hmem⟩

theorem main_genState_hit_symbols (s : Main.Settings) (rng : List Nat)
    (h : s.use_symbols.getD false = true) :
    ∃ c ∈ (Main.genState s rng).2.1, c ∈ Main.symbols := by
  unfold Main.genState
  rw [h]
  obtain ⟨c, hc, hmem⟩ :=
    addClass_guaranteed_hit Main.symbols
      (addClass (s.use_digits.getD false) string_digits
        (addClass (s.use_upper.getD false) ascii_uppercase
          (addClass (s.use_lower.getD false) ascii_lowercase ([], [], rng))))
      main_symbols_ne_nil
  exact ⟨c, hc, hmem⟩

/-! ### Branch characterisations of `Main.generate_password` -/

theorem main_gp_error (s : Main.Settings) (rng : List Nat)
    (hpool : (Main.genState s rng).1.isEmpty = true) :
    Main.generate_password s rng = Main.errorString := by
  unfold Main.generate_password
  simp [hpool]

theorem main_gp_trunc (s : Main.Settings) (rng : List Nat)
    (hpool : (Main.genState s rng).1.isEmpty = false)
    (hlen : s.length < ((Main.genState s rng).2.1.length : Int)) :
    Main.generate_password s rng =
      String.mk (pyTake s.length
        (shuffleList (Main.genState s rng).2.1 (Main.genState s rng).2.2)) := by
  unfold Main.generate_password
  simp [hpool, hlen]

theorem main_gp_fill (s : Main.Settings) (rng : List Nat)
    (hpool : (Main.genState s rng).1.isEmpty = false)
    (hlen : ¬ s.length < ((Main.genState s rng).2.1.length : Int)) :
    Main.generate_password s rng =
      String.mk (shuffleList
        ((Main.genState s rng).2.1 ++
          (randChoices (Main.genState s rng).1
            ((s.length - ((Main.genState s rng).2.1.length : Int)).toNat)
            (Main.genState s rng).2.2).1)
        (randChoices (Main.genState s rng).1
          ((s.length - ((Main.genState s rng).2.1.length : Int)).toNat)
          (Main.genState s rng).2.2).2) := by
  unfold Main.generate_password
  simp [hpool, hlen]

theorem main_pool_not_empty (s : Main.Settings) (rng : List Nat)
    (h1 : 1 ≤ Main.enabledCount s) :
    (Main.genState s rng).1.isEmpty = false := by
  cases h : (Main.genState s rng).1.isEmpty
  · rfl
  · have := (main_genState_fst_isEmpty s rng).mp h
    omega

/-! ### Facts about `TPB.genState` -/

theorem tpb_symbols_ne_nil : TPB.symbols ≠ [] := by decide

theorem tpb_genState_guaranteed_length (s : TPB.Settings) (rng : List Nat) :
    (TPB.genState s rng).2.1.length = TPB.enabledCount s := by
  unfold TPB.genState TPB.enabledCount
  rw [addClass_guaranteed_length, addClass_guaranteed_length,
    addClass_guaranteed_length, addClass_guaranteed_length]
  simp only [List.length_nil]
  omega

theorem tpb_genState_fst_isEmpty (s : TPB.Settings) (rng : List Nat) :
    (TPB.genState s rng).1.isEmpty = true ↔ TPB.enabledCount s = 0 := by
  unfold TPB.genState TPB.enabledCount
  rw [addClass_fst, addClass_fst, addClass_fst, addClass_fst]
  cases s.use_lower <;> cases s.use_upper <;>
    cases s.use_digits <;> cases s.use_symbols <;>
    simp [ascii_lowercase, ascii_uppercase, string_digits, TPB.symbols]

theorem tpb_pool_not_empty (s : TPB.Settings) (rng : List Nat)
    (h1 : 1 ≤ TPB.enabledCount s) :
    (TPB.genState s rng).1.isEmpty = false := by
  cases h : (TPB.genState s rng).1.isEmpty
  · rfl
  · have := (tpb_genState_fst_isEmpty s rng).mp h
    omega

theorem tpb_gp_fill (s : TPB.Settings) (rng : List Nat)
    (hpool : (TPB.genState s rng).1.isEmpty = false) :
    TPB.generate_password s rng =
      String.mk (shuffleList
        ((TPB.genState s rng).2.1 ++
          (randChoices (TPB.genState s rng).1
            ((s.length - ((TPB.genState s rng).2.1.length : Int)).toNat)
            (TPB.genState s rng).2.2).1)
        (randChoices (TPB.genState s rng).1
          ((s.length - ((TPB.genState s rng).2.1.length : Int)).toNat)
          (TPB.genState s rng).2.2).2) := by
  unfold TPB.generate_password
  simp [hpool]

/-! ### The claims

Each claim of the specification is settled by one theorem below.  `C1`–`C9`
concern `main.py`; `C10` concerns `telegram_password_bot.py`. -/

/-- C1: for every config in which at least one character class is enabled and
the requested length is at least the number of enabled classes,
`generate_password` returns a string whose length equals the requested length
and which contains at least one character from every enabled class. -/
theorem claim1_length_and_every_class
    (s : Main.Settings) (rng : List Nat)
    (h1 : 1 ≤ Main.enabledCount s)
    (h2 : (Main.enabledCount s : Int) ≤ s.length) :
    ((Main.generate_password s rng).length : Int) = s.length ∧
    (s.use_lower.getD false = true →
      ∃ c ∈ (Main.generate_password s rng).data, c ∈ ascii_lowercase) ∧
    (s.use_upper.getD false = true →
      ∃ c ∈ (Main.generate_password s rng).data, c ∈ ascii_uppercase) ∧
    (s.use_digits.getD false = true →
      ∃ c ∈ (Main.generate_password s rng).data, c ∈ string_digits) ∧
    (s.use_symbols.getD false = true →
      ∃ c ∈ (Main.generate_password s rng).data, c ∈ Main.symbols) := by
  have hpool := main_pool_not_empty s rng h1
  have hg := main_genState_guaranteed_length s rng
  have hlen : ¬ s.length < ((Main.genState s rng).2.1.length : Int) := by
    rw [hg]; omega
  rw [main_gp_fill s rng hpool hlen]
  have hmem : ∀ c ∈ (Main.genState s rng).2.1,
      c ∈ (String.mk (shuffleList
        ((Main.genState s rng).2.1 ++
          (randChoices (Main.genState s rng).1
            ((s.length - ((Main.genState s rng).2.1.length : Int)).toNat)
            (Main.genState s rng).2.2).1)
        (randChoices (Main.genState s rng).1
          ((s.length - ((Main.genState s rng).2.1.length : Int)).toNat)
          (Main.genState s rng).2.2).2)).data := by
    intro c hc
    show c ∈ shuffleList _ _
    exact shuffleList_mem.mpr (List.mem_append_left _ hc)
  refine ⟨?_, ?_, ?_, ?_, ?_⟩
  · show ((shuffleList _ _).length : Int) = s.length
    rw [shuffleList_length, List.length_append, randChoices_fst_length, hg]
    omega
  · intro h
    obtain ⟨c, hc, hcl⟩ := main_genState_hit_lower s rng h
    exact ⟨c, hmem c hc, hcl⟩
  · intro h
    obtain ⟨c, hc, hcl⟩ := main_genState_hit_upper s rng h
    exact ⟨c, hmem c hc, hcl⟩
  · intro h
    obtain ⟨c, hc, hcl⟩ := main_genState_hit_digits s rng h
    exact ⟨c, hmem c hc, hcl⟩
  · intro h
    obtain ⟨c, hc, hcl⟩ := main_genState_hit_symbols s rng h
    exact ⟨c, hmem c hc, hcl⟩

/-- C1 witness: the default classes at length 4. -/
theorem claim1_witness :
    ((Main.generate_password
        ⟨4, some true, some true, some true, some true⟩ []).length : Int) = 4 ∧
    ((⟨4, some true, some true, some true, some true⟩ :
        Main.Settings).use_lower.getD false = true →
      ∃ c ∈ (Main.generate_password
        ⟨4, some true, some true, some true, some true⟩ []).data,
        c ∈ ascii_lowercase) ∧
    ((⟨4, some true, some true, some true, some true⟩ :
        Main.Settings).use_upper.getD false = true →
      ∃ c ∈ (Main.generate_password
        ⟨4, some true, some true, some true, some true⟩ []).data,
        c ∈ ascii_uppercase) ∧
    ((⟨4, some true, some true, some true, some true⟩ :
        Main.Settings).use_digits.getD false = true →
      ∃ c ∈ (Main.generate_password
        ⟨4, some true, some true, some true, some true⟩ []).data,
        c ∈ string_digits) ∧
    ((⟨4, some true, some true, some true, some true⟩ :
        Main.Settings).use_symbols.getD false = true →
      ∃ c ∈ (Main.generate_password
        ⟨4, some true, some true, some true, some true⟩ []).data,
        c ∈ Main.symbols) :=
  claim1_length_and_every_class
    ⟨4, some true, some true, some true, some true⟩ [] (by decide) (by decide)

/-- C2 counterexample: with length 3 and all four classes enabled, the output
has length exactly 3 — it is not shorter than the requested length, contrary
to the claim's final conjunct. -/
theorem claim2_counterexample :
    1 ≤ Main.enabledCount ⟨3, some true, some true, some true, some true⟩ ∧
    (⟨3, some true, some true, some true, some true⟩ :
        Main.Settings).length <
      (Main.enabledCount ⟨3, some true, some true, some true, some true⟩ : Int) ∧
    ¬ (((Main.generate_password
          ⟨3, some true, some true, some true, some true⟩ []).length : Int) <
        (⟨3, some true, some true, some true, some true⟩ :
          Main.Settings).length) := by
  decide

/-- C2 as amended: when at least one class is enabled and the requested
length is below the enabled-class count, the output is a truncation (Python
slice `[:length]`) of a shuffle of just the guaranteed characters, and it is
shorter than the number of enabled classes (not shorter than the requested
length). -/
theorem claim2_amended_truncated_guaranteed
    (s : Main.Settings) (rng : List Nat)
    (h1 : 1 ≤ Main.enabledCount s)
    (h2 : s.length < (Main.enabledCount s : Int)) :
    ∃ l, l.Perm (Main.genState s rng).2.1 ∧
      (Main.generate_password s rng).data = pyTake s.length l ∧
      (Main.generate_password s rng).length < Main.enabledCount s := by
  have hpool := main_pool_not_empty s rng h1
  have hg := main_genState_guaranteed_length s rng
  have hlen : s.length < ((Main.genState s rng).2.1.length : Int) := by
    rw [hg]; exact h2
  rw [main_gp_trunc s rng hpool hlen]
  refine ⟨shuffleList (Main.genState s rng).2.1 (Main.genState s rng).2.2,
    shuffleList_perm _ _, rfl, ?_⟩
  show (pyTake s.length (shuffleList _ _)).length < Main.enabledCount s
  rw [pyTake_length, shuffleList_length, hg]
  split <;> omega

/-- C2 witness: length 3, all four classes enabled. -/
theorem claim2_witness :
    ∃ l, l.Perm (Main.genState
        ⟨3, some true, some true, some true, some true⟩ []).2.1 ∧
      (Main.generate_password
        ⟨3, some true, some true, some true, some true⟩ []).data =
        pyTake 3 l ∧
      (Main.generate_password
        ⟨3, some true, some true, some true, some true⟩ []).length <
        Main.enabledCount ⟨3, some true, some true, some true, some true⟩ :=
  claim2_amended_truncated_guaranteed
    ⟨3, some true, some true, some true, some true⟩ [] (by decide) (by decide)

/-- C3: starting from any config whose length is in `[4, 64]` (the range the
data model prescribes for `UserConfig`), any finite sequence of
increment-length and decrement-length button actions keeps the length in
`[4, 64]`, and none of these actions can fail. -/
theorem claim3_length_clamped
    (cfg : Main.Settings) (acts : List Main.Action)
    (hacts : ∀ a ∈ acts, a = Main.Action.len_incr ∨ a = Main.Action.len_decr)
    (h4 : 4 ≤ cfg.length) (h64 : cfg.length ≤ 64) :
    ∃ c, Main.applyActions acts cfg = Except.ok c ∧
      4 ≤ c.length ∧ c.length ≤ 64 := by
  induction acts generalizing cfg with
  | nil => exact ⟨cfg, rfl, h4, h64⟩
  | cons a rest ih =>
    have hrest : ∀ b ∈ rest, b = Main.Action.len_incr ∨ b = Main.Action.len_decr :=
      fun b hb => hacts b (List.mem_cons_of_mem _ hb)
    rcases hacts a (List.mem_cons_self a rest) with rfl | rfl
    · simp only [Main.applyActions, Main.button_callback]
      exact ih _ hrest (by show 4 ≤ min 64 (cfg.length + 1); omega)
        (by show min 64 (cfg.length + 1) ≤ 64; omega)
    · simp only [Main.applyActions, Main.button_callback]
      exact ih _ hrest (by show 4 ≤ max 4 (cfg.length - 1); omega)
        (by show max 4 (cfg.length - 1) ≤ 64; omega)

/-- C3 witness: one increment and two decrements from the default config. -/
theorem claim3_witness :
    ∃ c, Main.applyActions
        [Main.Action.len_incr, Main.Action.len_decr, Main.Action.len_decr]
        Main.get_default_settings = Except.ok c ∧
      4 ≤ c.length ∧ c.length ≤ 64 :=
  claim3_length_clamped Main.get_default_settings
    [Main.Action.len_incr, Main.Action.len_decr, Main.Action.len_decr]
    (by decide) (by decide) (by decide)

/-- C4: when all four character classes are disabled (each flag reads as
`False`, whether stored as `False` or absent), `generate_password` returns
the one fixed sentinel error string; being a total function of the embedding,
it raises no exception. -/
theorem claim4_sentinel_error
    (s : Main.Settings) (rng : List Nat)
    (hl : s.use_lower.getD false = false)
    (hu : s.use_upper.getD false = false)
    (hd : s.use_digits.getD false = false)
    (hs : s.use_symbols.getD false = false) :
    Main.generate_password s rng = Main.errorString := by
  apply main_gp_error
  apply (main_genState_fst_isEmpty s rng).mpr
  unfold Main.enabledCount
  rw [hl, hu, hd, hs]
  simp

/-- C4 witness: a config with two flags stored `False` and two absent. -/
theorem claim4_witness :
    Main.generate_password ⟨16, some false, none, none, some false⟩ [5, 7] =
      Main.errorString :=
  claim4_sentinel_error ⟨16, some false, none, none, some false⟩ [5, 7]
    (by decide) (by decide) (by decide) (by decide)

/-- C5 counterexample: on a read failure over an existing settings file
(`OSError` while opening or reading), `load_user_settings` does not return a
table at all — the exception propagates, contrary to the claim. -/
theorem claim5_counterexample :
    ¬ ∃ r, Main.load_user_settings Main.ReadOutcome.readError = Except.ok r :=
  fun ⟨_, h⟩ => by simp [Main.load_user_settings] at h

/-- C5 as amended: a missing settings file and unparseable contents both
yield the empty table (the JSON decode failure being logged), and a parsed
file yields its table; but an OS-level read failure on an existing file is
not caught and propagates as an exception. -/
theorem claim5_amended_load_errors :
    Main.load_user_settings Main.ReadOutcome.missing = Except.ok ([], []) ∧
    Main.load_user_settings Main.ReadOutcome.parseError =
      Except.ok ([], ["Ошибка декодирования JSON"]) ∧
    (∀ t, Main.load_user_settings (Main.ReadOutcome.parsed t) =
      Except.ok (t, [])) ∧
    Main.load_user_settings Main.ReadOutcome.readError = Except.error "OSError" :=
  ⟨rfl, rfl, fun _ => rfl, rfl⟩

/-- C6: a user id not in the table gets the default config — length 16 and
all four class flags stored `True` — while an id already present gets its
stored config back unchanged. -/
theorem claim6_default_on_first_contact (user_id : Int) (t : Main.SettingsTable) :
    (List.lookup (toString user_id) t = none →
      (Main.get_user_config user_id t).1.length = 16 ∧
      (Main.get_user_config user_id t).1.use_upper = some true ∧
      (Main.get_user_config user_id t).1.use_lower = some true ∧
      (Main.get_user_config user_id t).1.use_digits = some true ∧
      (Main.get_user_config user_id t).1.use_symbols = some true) ∧
    (∀ c, List.lookup (toString user_id) t = some c →
      (Main.get_user_config user_id t).1 = c) := by
  constructor
  · intro h
    simp [Main.get_user_config, h, Main.get_default_settings]
  · intro c h
    simp [Main.get_user_config, h]

/-- C6 witness: id 7 against the empty table, and against a table already
holding an entry for "7". -/
theorem claim6_witness :
    (Main.get_user_config 7 []).1.length = 16 ∧
    (Main.get_user_config 7
      [("7", ⟨20, some false, some true, none, some false⟩)]).1 =
      ⟨20, some false, some true, none, some false⟩ := by
  constructor
  · exact ((claim6_default_on_first_contact 7 []).1 (by decide)).1
  · exact (claim6_default_on_first_contact 7
      [("7", ⟨20, some false, some true, none, some false⟩)]).2
      ⟨20, some false, some true, none, some false⟩ (by decide)

/-- C7: the "generate" button action leaves the user's config unchanged:
the callback succeeds and every field of the resulting config equals the
corresponding field before the action. -/
theorem claim7_generate_frame (cfg : Main.Settings) (rng : List Nat) :
    ∃ msgs cfg', Main.button_callback Main.Action.generate cfg rng =
        Except.ok (cfg', msgs) ∧
      cfg'.length = cfg.length ∧
      cfg'.use_upper = cfg.use_upper ∧
      cfg'.use_lower = cfg.use_lower ∧
      cfg'.use_digits = cfg.use_digits ∧
      cfg'.use_symbols = cfg.use_symbols :=
  ⟨_, cfg, rfl, rfl, rfl, rfl, rfl, rfl⟩

/-- C8: whenever at least one class is enabled, every character of the
generated password belongs to the union of the enabled character classes. -/
theorem claim8_chars_from_union (s : Main.Settings) (rng : List Nat)
    (h1 : 1 ≤ Main.enabledCount s) :
    ∀ c ∈ (Main.generate_password s rng).data, Main.inUnion s c := by
  have hpool := main_pool_not_empty s rng h1
  have hpoolne : (Main.genState s rng).1 ≠ [] := by
    intro e
    rw [e] at hpool
    simp at hpool
  by_cases hlen : s.length < ((Main.genState s rng).2.1.length : Int)
  · rw [main_gp_trunc s rng hpool hlen]
    intro c hc
    have h1' : c ∈ shuffleList (Main.genState s rng).2.1 (Main.genState s rng).2.2 :=
      pyTake_subset _ _ hc
    exact main_genState_mem_guaranteed s rng c (shuffleList_mem.mp h1')
  · rw [main_gp_fill s rng hpool hlen]
    intro c hc
    have hc' := shuffleList_mem.mp hc
    rcases List.mem_append.mp hc' with h | h
    · exact main_genState_mem_guaranteed s rng c h
    · exact (main_genState_mem_fst s rng c).mp
        (randChoices_fst_mem _ hpoolne _ _ c h)

/-- C8 witness: the first character of a concrete generated password lies in
the union of the enabled classes. -/
theorem claim8_witness :
    Main.inUnion ⟨4, some true, some true, some true, some true⟩
      ((Main.generate_password
        ⟨4, some true, some true, some true, some true⟩ []).data.getD 0 ' ') :=
  claim8_chars_from_union ⟨4, some true, some true, some true, some true⟩ []
    (by decide) _ (by decide)

/-- C9: a config dict lacking any of the four class-flag keys is treated by
`generate_password` exactly as if that flag were stored `False` (the flags
are read with `.get(key, False)`), so no `KeyError` can arise. -/
theorem claim9_missing_flag_disabled (s : Main.Settings) (rng : List Nat) :
    Main.generate_password { s with use_lower := none } rng =
      Main.generate_password { s with use_lower := some false } rng ∧
    Main.generate_password { s with use_upper := none } rng =
      Main.generate_password { s with use_upper := some false } rng ∧
    Main.generate_password { s with use_digits := none } rng =
      Main.generate_password { s with use_digits := some false } rng ∧
    Main.generate_password { s with use_symbols := none } rng =
      Main.generate_password { s with use_symbols := some false } rng :=
  ⟨rfl, rfl, rfl, rfl⟩

/-- C10: in `telegram_password_bot.py`, with at least one class enabled and
the requested length below the enabled-class count, the password consists of
exactly one character per enabled class — it is a permutation of four blocks,
one per class, where an enabled class contributes exactly one character of
that class and a disabled class contributes nothing — so its length equals
the enabled-class count and exceeds the requested length. -/
theorem claim10_one_char_per_class (s : TPB.Settings) (rng : List Nat)
    (h1 : 1 ≤ TPB.enabledCount s)
    (h2 : s.length < (TPB.enabledCount s : Int)) :
    (∃ lo up di sy : List Char,
      (∀ c ∈ lo, c ∈ ascii_lowercase) ∧
        lo.length = (if s.use_lower then 1 else 0) ∧
      (∀ c ∈ up, c ∈ ascii_uppercase) ∧
        up.length = (if s.use_upper then 1 else 0) ∧
      (∀ c ∈ di, c ∈ string_digits) ∧
        di.length = (if s.use_digits then 1 else 0) ∧
      (∀ c ∈ sy, c ∈ TPB.symbols) ∧
        sy.length = (if s.use_symbols then 1 else 0) ∧
      ((TPB.generate_password s rng).data).Perm (lo ++ up ++ di ++ sy)) ∧
    (TPB.generate_password s rng).length = TPB.enabledCount s ∧
    s.length < ((TPB.generate_password s rng).length : Int) := by
  have hpool := tpb_pool_not_empty s rng h1
  have hg := tpb_genState_guaranteed_length s rng
  have hrem : (s.length - ((TPB.genState s rng).2.1.length : Int)).toNat = 0 := by
    rw [hg]; omega
  rw [tpb_gp_fill s rng hpool, hrem]
  refine ⟨?_, ?_, ?_⟩
  · refine ⟨(if s.use_lower then [(randChoice ascii_lowercase rng).1] else []),
      (if s.use_upper then [(randChoice ascii_uppercase
        (addClass s.use_lower ascii_lowercase ([], [], rng)).2.2).1] else []),
      (if s.use_digits then [(randChoice string_digits
        (addClass s.use_upper ascii_uppercase
          (addClass s.use_lower ascii_lowercase ([], [], rng))).2.2).1] else []),
      (if s.use_symbols then [(randChoice TPB.symbols
        (addClass s.use_digits string_digits
          (addClass s.use_upper ascii_uppercase
            (addClass s.use_lower ascii_lowercase ([], [], rng)))).2.2).1] else []),
      ?_, ?_, ?_, ?_, ?_, ?_, ?_, ?_, ?_⟩
    · by_cases hb : s.use_lower = true
      · simp only [hb, if_true, List.mem_singleton]
        rintro c rfl
        exact randChoice_mem _ _ ascii_lowercase_ne_nil
      · simp [hb]
    · by_cases hb : s.use_lower = true <;> simp [hb]
    · by_cases hb : s.use_upper = true
      · simp only [hb, if_true, List.mem_singleton]
        rintro c rfl
        exact randChoice_mem _ _ ascii_uppercase_ne_nil
      · simp [hb]
    · by_cases hb : s.use_upper = true <;> simp [hb]
    · by_cases hb : s.use_digits = true
      · simp only [hb, if_true, List.mem_singleton]
        rintro c rfl
        exact randChoice_mem _ _ string_digits_ne_nil
      · simp [hb]
    · by_cases hb : s.use_digits = true <;> simp [hb]
    · by_cases hb : s.use_symbols = true
      · simp only [hb, if_true, List.mem_singleton]
        rintro c rfl
        exact randChoice_mem _ _ tpb_symbols_ne_nil
      · simp [hb]
    · by_cases hb : s.use_symbols = true <;> simp [hb]
    · have hgeq : (TPB.genState s rng).2.1 =
          (((([] : List Char) ++
            (if s.use_lower then [(randChoice ascii_lowercase rng).1] else [])) ++
            (if s.use_upper then [(randChoice ascii_uppercase
              (addClass s.use_lower ascii_lowercase ([], [], rng)).2.2).1] else [])) ++
            (if s.use_digits then [(randChoice string_digits
              (addClass s.use_upper ascii_uppercase
                (addClass s.use_lower ascii_lowercase ([], [], rng))).2.2).1] else [])) ++
            (if s.use_symbols then [(randChoice TPB.symbols
              (addClass s.use_digits string_digits
                (addClass s.use_upper ascii_uppercase
                  (addClass s.use_lower ascii_lowercase ([], [], rng)))).2.2).1] else []) := by
        unfold TPB.genState
        rw [addClass_guaranteed, addClass_guaranteed, addClass_guaranteed,
          addClass_guaranteed]
      show (shuffleList _ _).Perm _
      refine (shuffleList_perm _ _).trans ?_
      have hfill : (randChoices (TPB.genState s rng).1 0 (TPB.genState s rng).2.2).1 =
          ([] : List Char) := rfl
      rw [hfill, List.append_nil, hgeq]
      simp only [List.nil_append, List.append_assoc]
      exact List.Perm.refl _
  · show (shuffleList _ _).length = TPB.enabledCount s
    rw [shuffleList_length, List.length_append, randChoices_fst_length, hg]
    omega
  · show s.length < ((shuffleList _ _).length : Int)
    rw [shuffleList_length, List.length_append, randChoices_fst_length, hg]
    push_cast
    omega

/-- C10 witness: requested length 2 with all four classes enabled yields a
4-character password made of one character from each class. -/
theorem claim10_witness :
    (∃ lo up di sy : List Char,
      (∀ c ∈ lo, c ∈ ascii_lowercase) ∧ lo.length = 1 ∧
      (∀ c ∈ up, c ∈ ascii_uppercase) ∧ up.length = 1 ∧
      (∀ c ∈ di, c ∈ string_digits) ∧ di.length = 1 ∧
      (∀ c ∈ sy, c ∈ TPB.symbols) ∧ sy.length = 1 ∧
      ((TPB.generate_password ⟨2, true, true, true, true⟩ [9, 1, 3]).data).Perm
        (lo ++ up ++ di ++ sy)) ∧
    (TPB.generate_password ⟨2, true, true, true, true⟩ [9, 1, 3]).length =
      TPB.enabledCount ⟨2, true, true, true, true⟩ ∧
    (2 : Int) <
      ((TPB.generate_password ⟨2, true, true, true, true⟩ [9, 1, 3]).length : Int) :=
  claim10_one_char_per_class ⟨2, true, true, true, true⟩ [9, 1, 3]
    (by decide) (by decide)
